import Mathlib

/-!
Shallow embedding of the reader concurrency semaphore from
src/reader_concurrency_semaphore.cc (ScyllaDB). Machine integers are
modelled as Int (overflow is irrelevant at the scales the claims touch),
futures and promises as explicit outcome values, and side effects
(closing readers, invoking notify handlers, logging) as event lists in
the return values. Operations mirror the source functions line by line;
primitives whose definitions live only in the missing header are
modelled from the spec and marked as such in their doc comments.
-/

namespace Scylla

/-- Modelled from the spec (section 3): the resources value type
of the missing header reader_concurrency_semaphore.hh; a pair of a slot
count and a signed byte budget. -/
structure reader_resources where
  count : Int
  memory : Int
deriving DecidableEq

namespace reader_resources

/-- Modelled from the spec (section 3): componentwise addition. -/
def add (a b : reader_resources) : reader_resources :=
  ⟨a.count + b.count, a.memory + b.memory⟩

/-- Modelled from the spec (section 3): componentwise subtraction. -/
def sub (a b : reader_resources) : reader_resources :=
  ⟨a.count - b.count, a.memory - b.memory⟩

/-- Modelled from the spec (section 3): componentwise comparison,
a is at least b in both components. -/
def ge (a b : reader_resources) : Bool :=
  decide (b.count ≤ a.count) && decide (b.memory ≤ a.memory)

/-- Modelled from the spec (section 3): the truthiness predicate,
bool(R) holds iff count is positive and memory is positive. -/
def truthy (a : reader_resources) : Bool :=
  decide (0 < a.count) && decide (0 < a.memory)

end reader_resources

/-- Lifecycle state of a permit record (reader_permit::state in the
source: waiting, active, inactive). -/
inductive permit_state where
  | waiting
  | active
  | inactive
deriving DecidableEq

/-- Eviction reasons (enum class evict_reason in the source). -/
inductive evict_reason where
  | permit
  | time
  | manual
deriving DecidableEq

/-- Kinds of error the semaphore surfaces to waiters. -/
inductive err_kind where
  | broken_semaphore
  | semaphore_stopped
  | timed_out
deriving DecidableEq

/-- Observable side effects of an operation, collected as a list. -/
inductive event where
  | notified (id : Nat) (reason : evict_reason)
  | closed_reader (id : Nat)
  | logged_warning
deriving DecidableEq

/-- An entry of the wait queue (struct entry in the source: a promise,
the permit and the requested resources). The permit record is modelled
by its identity and its state field. -/
structure entry where
  permit_id : Nat
  permit_state : permit_state
  res : reader_resources
deriving DecidableEq

/-- An inactive read parked in the registry, modelled by its identity
and whether a notify handler was installed. -/
structure inactive_read where
  id : Nat
  has_notify_handler : Bool
deriving DecidableEq

/-- Monotonic counters of the semaphore. Modelled from the spec
(section 6): inactive_reads, permit_based_evictions,
time_based_evictions, total_reads_shed_due_to_overload; there is no
counter for manual evictions. -/
structure semaphore_stats where
  inactive_reads : Nat
  permit_based_evictions : Nat
  time_based_evictions : Nat
  total_reads_shed_due_to_overload : Nat
deriving DecidableEq

/-- The all-zero counters a fresh semaphore starts with. -/
def stats_zero : semaphore_stats := ⟨0, 0, 0, 0⟩

/-- The reader concurrency semaphore state: initial and current
resources, the FIFO wait queue, the FIFO inactive-read list, the queue
bound, the counters, whether a prethrow action is installed, and the
stopped flag. -/
structure reader_concurrency_semaphore where
  initial_resources : reader_resources
  resources : reader_resources
  wait_list : List entry
  inactive_reads : List inactive_read
  max_queue_length : Nat
  stats : semaphore_stats
  prethrow_action : Bool
  stopped : Bool
deriving DecidableEq

/-- Result of an admission attempt, standing in for the returned
future: admitted carries the ResourceUnits amount of a ready future,
queued is a pending future, overload_err an exceptional future. -/
inductive admission_outcome where
  | admitted (r : reader_resources)
  | queued
  | overload_err
deriving DecidableEq

/-- Return value of the admission functions: the outcome, the new
semaphore state, the permit record state afterwards, whether the
prethrow action ran, and whether background eviction was kicked off. -/
structure admission_result where
  out : admission_outcome
  sem : reader_concurrency_semaphore
  pstate : permit_state
  prethrow_invoked : Bool
  eviction_kicked : Bool
deriving DecidableEq

namespace reader_concurrency_semaphore

/-- Constructor of the semaphore (source line 391): both resource
fields start at the given capacities, queues empty, counters zero. -/
def make (count memory : Int) (max_queue_length : Nat) (prethrow : Bool) :
    reader_concurrency_semaphore :=
  { initial_resources := ⟨count, memory⟩
  , resources := ⟨count, memory⟩
  , wait_list := []
  , inactive_reads := []
  , max_queue_length := max_queue_length
  , stats := stats_zero
  , prethrow_action := prethrow
  , stopped := false }

/-- The availability predicate (source line 548): admit when the
available resources are truthy and cover the request, or when no
count unit is held at all. -/
def has_available_units (s : reader_concurrency_semaphore) (r : reader_resources) : Bool :=
  (s.resources.truthy && s.resources.ge r) || decide (s.resources.count = s.initial_resources.count)

/-- Modelled from the spec (section 4.2): the semaphore side of
permit consume, declared in the missing header; decrements the
available resources, with no admission check. -/
def consume (s : reader_concurrency_semaphore) (r : reader_resources) :
    reader_concurrency_semaphore :=
  { s with resources := s.resources.sub r }

/-- The availability predicate on explicit components, used by the
wake loop of signal while the available amount evolves. -/
def has_available_at (initial avail r : reader_resources) : Bool :=
  (avail.truthy && avail.ge r) || decide (avail.count = initial.count)

/-- Admission marks the permit record active (on_admission, source
line 127). -/
def admit_entry (e : entry) : entry :=
  { e with permit_state := permit_state.active }

/-- The head-only wake loop of signal (source lines 379 to 388):
while the queue is non-empty and the head request fits, mark its
permit active, hand it its resources (the ResourceUnits constructor
consumes them from the semaphore) and pop it. Returns the final
available amount, the admitted entries in order, and the remaining
queue. -/
def signal_loop (initial : reader_resources) :
    reader_resources → List entry → reader_resources × List entry × List entry
  | avail, [] => (avail, [], [])
  | avail, e :: rest =>
    if has_available_at initial avail e.res then
      let t := signal_loop initial (avail.sub e.res) rest
      (t.1, admit_entry e :: t.2.1, t.2.2)
    else
      (avail, [], e :: rest)

/-- The signal operation (source line 377): add the released amount to
the available resources, then run the head-only wake loop. Returns the
new state and the admitted entries in admission order. -/
def signal (s : reader_concurrency_semaphore) (r : reader_resources) :
    reader_concurrency_semaphore × List entry :=
  let t := signal_loop s.initial_resources (s.resources.add r) s.wait_list
  ({ s with resources := t.1, wait_list := t.2.2 }, t.2.1)

/-- The waiter enqueue path (source line 554): when the queue already
holds max_queue_length entries, bump the overload counter, run the
prethrow action if installed and fail; otherwise mark the permit
waiting and push it to the back of the queue. -/
def enqueue_waiter (s : reader_concurrency_semaphore) (pid : Nat) (ps : permit_state)
    (r : reader_resources) : admission_result :=
  if s.max_queue_length ≤ s.wait_list.length then
    { out := admission_outcome.overload_err
    , sem := { s with stats := { s.stats with
        total_reads_shed_due_to_overload := s.stats.total_reads_shed_due_to_overload + 1 } }
    , pstate := ps
    , prethrow_invoked := s.prethrow_action
    , eviction_kicked := false }
  else
    { out := admission_outcome.queued
    , sem := { s with wait_list := s.wait_list ++ [⟨pid, permit_state.waiting, r⟩] }
    , pstate := permit_state.waiting
    , prethrow_invoked := false
    , eviction_kicked := false }

/-- The admission entry point (source line 584): build the request
(1, memory); when the queue is empty and the request fits, admit on
the fast path (mark active, consume, return a ready future); otherwise
go through enqueue_waiter, kicking background eviction when this was
the first waiter and inactive reads exist. -/
def do_wait_admission (s : reader_concurrency_semaphore) (pid : Nat) (ps : permit_state)
    (memory : Int) : admission_result :=
  let r : reader_resources := ⟨1, memory⟩
  let first := s.wait_list.isEmpty
  if first && s.has_available_units r then
    { out := admission_outcome.admitted r
    , sem := s.consume r
    , pstate := permit_state.active
    , prethrow_invoked := false
    , eviction_kicked := false }
  else
    let q := s.enqueue_waiter pid ps r
    { q with eviction_kicked := first && !s.inactive_reads.isEmpty }

/-- The broken operation (source line 611): choose the default
broken-semaphore error when none is given, then fail and pop every
queued waiter in order. Returns the failed entries paired with the
error they saw, and the new state. -/
def broken (s : reader_concurrency_semaphore) (ex : Option err_kind) :
    List (entry × err_kind) × reader_concurrency_semaphore :=
  let e := ex.getD err_kind.broken_semaphore
  (s.wait_list.map (fun w => (w, e)), { s with wait_list := [] })

/-- The expiry handler of the wait queue (source line 353): fail the
entry with a timed-out error; the permit record is not touched. -/
def expiry_handler (e : entry) : err_kind × entry :=
  (err_kind.timed_out, e)

/-- Registration of an inactive read (source line 414): when no waiter
is queued and memory headroom is positive, insert at the back, bump
the inactive_reads counter and mark the permit inactive (a failed
allocation instead logs a warning and drops the reader, leaving the
state untouched); otherwise bump permit_based_evictions and drop the
reader. Returns whether the handle is non-null, the new state, the
permit state afterwards and the side effects. -/
def register_inactive_read (s : reader_concurrency_semaphore) (ps : permit_state)
    (ir : inactive_read) (alloc_ok : Bool) :
    Bool × reader_concurrency_semaphore × permit_state × List event :=
  if s.wait_list.isEmpty && decide (0 < s.resources.memory) then
    if alloc_ok then
      (true,
       { s with inactive_reads := s.inactive_reads ++ [ir]
              , stats := { s.stats with inactive_reads := s.stats.inactive_reads + 1 } },
       permit_state.inactive, [])
    else
      (false, s, ps, [event.logged_warning, event.closed_reader ir.id])
  else
    (false,
     { s with stats := { s.stats with
         permit_based_evictions := s.stats.permit_based_evictions + 1 } },
     ps, [event.closed_reader ir.id])

/-- Unregistration of an inactive read through a live same-semaphore
handle (source line 454): decrement the inactive_reads counter, unlink
the entry and mark the permit active again. -/
def unregister_inactive_read (s : reader_concurrency_semaphore) (ir_id : Nat) :
    reader_concurrency_semaphore × permit_state :=
  ({ s with inactive_reads := s.inactive_reads.eraseP (fun x => x.id == ir_id)
          , stats := { s.stats with inactive_reads := s.stats.inactive_reads - 1 } },
   permit_state.active)

/-- Detaching an inactive read for eviction (source line 511): invoke
the notify handler if installed, bump the counter matching the reason
(none for manual), decrement inactive_reads and unlink the entry. -/
def detach_inactive_reader (s : reader_concurrency_semaphore) (ir : inactive_read)
    (reason : evict_reason) : reader_concurrency_semaphore × List event :=
  let ev := if ir.has_notify_handler then [event.notified ir.id reason] else []
  let st1 :=
    match reason with
    | evict_reason.permit =>
        { s.stats with permit_based_evictions := s.stats.permit_based_evictions + 1 }
    | evict_reason.time =>
        { s.stats with time_based_evictions := s.stats.time_based_evictions + 1 }
    | evict_reason.manual => s.stats
  ({ s with inactive_reads := s.inactive_reads.eraseP (fun x => x.id == ir.id)
          , stats := { st1 with inactive_reads := st1.inactive_reads - 1 } },
   ev)

/-- Eviction of an inactive read (source line 536): detach, then close
the reader in the background. -/
def evict (s : reader_concurrency_semaphore) (ir : inactive_read) (reason : evict_reason) :
    reader_concurrency_semaphore × List event :=
  let t := s.detach_inactive_reader ir reason
  (t.1, t.2 ++ [event.closed_reader ir.id])

/-- Single eviction attempt (source line 481): false on an empty list,
otherwise evict the head (oldest) entry and return true. -/
def try_evict_one_inactive_read (s : reader_concurrency_semaphore) (reason : evict_reason) :
    Bool × reader_concurrency_semaphore × List event :=
  match s.inactive_reads with
  | [] => (false, s, [])
  | ir :: _ =>
    let t := s.evict ir reason
    (true, t.1, t.2)

/-- The close events of the clear loop, one per entry in order. -/
def clear_loop : List inactive_read → List event
  | [] => []
  | ir :: rest => event.closed_reader ir.id :: clear_loop rest

/-- Clearing of all inactive reads (source line 489): repeatedly close
the head reader and destroy the entry, which unlinks it; the counters
are not touched by this loop. -/
def clear_inactive_reads (s : reader_concurrency_semaphore) :
    reader_concurrency_semaphore × List event :=
  ({ s with inactive_reads := [] }, clear_loop s.inactive_reads)

/-- Shutdown (source line 502): set the stopped flag, clear the
inactive reads, then break the semaphore with the stopped error. -/
def stop (s : reader_concurrency_semaphore) :
    reader_concurrency_semaphore × List event × List (entry × err_kind) :=
  let c := clear_inactive_reads { s with stopped := true }
  let b := c.1.broken (some err_kind.semaphore_stopped)
  (b.2, c.2, b.1)

end reader_concurrency_semaphore

/-- The bookkeeping invariant of the inactive registry: the
inactive_reads counter equals the length of the inactive list. -/
def inactive_counter_ok (s : reader_concurrency_semaphore) : Prop :=
  s.stats.inactive_reads = s.inactive_reads.length

/-- A queued waiter requesting one count unit and the given memory. -/
def sample_waiter (n : Nat) (m : Int) : entry :=
  ⟨n, permit_state.waiting, ⟨1, m⟩⟩

/-- A semaphore with two queued waiters of which only the first fits
once one count unit and thirty memory units come back. -/
def c3sem : reader_concurrency_semaphore :=
  { initial_resources := ⟨2, 100⟩
  , resources := ⟨0, 10⟩
  , wait_list := [sample_waiter 1 30, sample_waiter 2 200]
  , inactive_reads := []
  , max_queue_length := 8
  , stats := stats_zero
  , prethrow_action := true
  , stopped := false }

/-- A saturated semaphore whose wait queue is at its length bound. -/
def c4sem : reader_concurrency_semaphore :=
  { initial_resources := ⟨1, 100⟩
  , resources := ⟨0, 0⟩
  , wait_list := [sample_waiter 7 100]
  , inactive_reads := []
  , max_queue_length := 1
  , stats := stats_zero
  , prethrow_action := true
  , stopped := false }

/-- A semaphore holding exactly one inactive read, with the counter in
sync. -/
def c5sem : reader_concurrency_semaphore :=
  { initial_resources := ⟨10, 1000⟩
  , resources := ⟨9, 900⟩
  , wait_list := []
  , inactive_reads := [⟨0, false⟩]
  , max_queue_length := 8
  , stats := { stats_zero with inactive_reads := 1 }
  , prethrow_action := false
  , stopped := false }

/-- A semaphore holding one inactive read that has a notify handler. -/
def c6sem : reader_concurrency_semaphore :=
  { initial_resources := ⟨10, 1000⟩
  , resources := ⟨9, 900⟩
  , wait_list := []
  , inactive_reads := [⟨3, true⟩]
  , max_queue_length := 8
  , stats := { stats_zero with inactive_reads := 1 }
  , prethrow_action := false
  , stopped := false }

/-- An idle full-capacity semaphore with one queued waiter, used to
exercise broken. -/
def c8sem : reader_concurrency_semaphore :=
  { initial_resources := ⟨1, 100⟩
  , resources := ⟨1, 100⟩
  , wait_list := [sample_waiter 0 200]
  , inactive_reads := []
  , max_queue_length := 10
  , stats := stats_zero
  , prethrow_action := false
  , stopped := false }

/-- A semaphore from which a permit holds a memory-only residue of
1024 bytes, so that full restoration would bring available back to the
initial amount. -/
def c9sem : reader_concurrency_semaphore :=
  { initial_resources := ⟨10, 2000⟩
  , resources := ⟨10, 976⟩
  , wait_list := []
  , inactive_reads := []
  , max_queue_length := 8
  , stats := stats_zero
  , prethrow_action := false
  , stopped := false }

/-- Result of destroying a permit record: the semaphore afterwards,
the waiters admitted by the forced release, and whether the leak was
logged at error level. -/
structure destroy_result where
  sem : reader_concurrency_semaphore
  admitted : List entry
  logged_error : Bool
deriving DecidableEq

/-- The permit record destructor (source line 97): when the held
resources are truthy, log the leak at error level and signal the
residue back to the semaphore; otherwise do nothing. -/
def permit_impl_destroy (s : reader_concurrency_semaphore) (held : reader_resources) :
    destroy_result :=
  if held.truthy then
    let t := s.signal held
    ⟨t.1, t.2, true⟩
  else
    ⟨s, [], false⟩

open reader_concurrency_semaphore

/-- C1: the admission predicate has_available_units(R_req) holds iff
available covers R_req componentwise and available is truthy (count
and memory both positive), or available.count equals initial.count; in
particular a request (1, M) passes whenever available.count equals
initial.count, and a single such waiter on an empty queue is admitted
by the fast path regardless of M. -/
theorem C1_has_available_units_characterization
    (s : reader_concurrency_semaphore) (r : reader_resources) :
    (s.has_available_units r = true ↔
      ((s.resources.ge r = true ∧ s.resources.truthy = true) ∨
        s.resources.count = s.initial_resources.count)) ∧
    (∀ M : Int, s.resources.count = s.initial_resources.count →
      s.has_available_units ⟨1, M⟩ = true) ∧
    (∀ (pid : Nat) (ps : permit_state) (M : Int),
      s.resources.count = s.initial_resources.count → s.wait_list = [] →
      (s.do_wait_admission pid ps M).out = admission_outcome.admitted ⟨1, M⟩) := by
  refine ⟨?_, ?_, ?_⟩
  · simp only [has_available_units, Bool.or_eq_true, Bool.and_eq_true, decide_eq_true_eq]
    tauto
  · intro M h
    simp [has_available_units, h]
  · intro pid ps M h hq
    simp [do_wait_admission, hq, has_available_units, h]

/-- Witness for C1 at a concrete semaphore of capacity (2, 100): a
lone waiter asking for 500 memory units, more than the whole initial
budget, is admitted while no count unit is held. -/
theorem C1_witness :
    ((make 2 100 4 false).do_wait_admission 0 permit_state.active 500).out =
      admission_outcome.admitted ⟨1, 500⟩ :=
  (C1_has_available_units_characterization (make 2 100 4 false) ⟨1, 500⟩).2.2
    0 permit_state.active 500 rfl rfl

/-- C2: when the wait queue is empty and the request (1, memory) is
available, wait_admission takes the fast path: the permit becomes
active, the result is a ready future holding ResourceUnits of
(1, memory), available drops by (1, memory), and nothing is enqueued,
no prethrow runs and no eviction is kicked. -/
theorem C2_fast_path (s : reader_concurrency_semaphore) (pid : Nat)
    (ps : permit_state) (m : Int)
    (hq : s.wait_list = []) (ha : s.has_available_units ⟨1, m⟩ = true) :
    s.do_wait_admission pid ps m =
      { out := admission_outcome.admitted ⟨1, m⟩
      , sem := { s with resources := s.resources.sub ⟨1, m⟩ }
      , pstate := permit_state.active
      , prethrow_invoked := false
      , eviction_kicked := false } := by
  simp [do_wait_admission, consume, hq, ha]

/-- Witness for C2 at a concrete fresh semaphore of capacity
(1, 100) admitting a request of 10 memory units. -/
theorem C2_witness :
    (make 1 100 4 false).wait_list = [] ∧
    (make 1 100 4 false).has_available_units ⟨1, 10⟩ = true ∧
    (make 1 100 4 false).do_wait_admission 0 permit_state.active 10 =
      { out := admission_outcome.admitted ⟨1, 10⟩
      , sem := { make 1 100 4 false with
          resources := (make 1 100 4 false).resources.sub ⟨1, 10⟩ }
      , pstate := permit_state.active
      , prethrow_invoked := false
      , eviction_kicked := false } :=
  ⟨rfl, by decide, C2_fast_path (make 1 100 4 false) 0 permit_state.active 10 rfl (by decide)⟩

/-- C4: when the fast path is unavailable and the wait queue already
holds max_queue_length entries, admission fails synchronously with the
overload error, bumps total_reads_shed_due_to_overload, runs the
prethrow action exactly when one is installed, and leaves the
available resources and the wait queue unchanged. -/
theorem C4_overload (s : reader_concurrency_semaphore) (pid : Nat)
    (ps : permit_state) (m : Int)
    (hnf : (s.wait_list.isEmpty && s.has_available_units ⟨1, m⟩) = false)
    (hfull : s.max_queue_length ≤ s.wait_list.length) :
    s.do_wait_admission pid ps m =
      { out := admission_outcome.overload_err
      , sem := { s with stats := { s.stats with
          total_reads_shed_due_to_overload :=
            s.stats.total_reads_shed_due_to_overload + 1 } }
      , pstate := ps
      , prethrow_invoked := s.prethrow_action
      , eviction_kicked := s.wait_list.isEmpty && !s.inactive_reads.isEmpty } := by
  simp [do_wait_admission, enqueue_waiter, hnf, hfull]

/-- Witness for C4 at a concrete saturated semaphore with a one-entry
bound and an installed prethrow action. -/
theorem C4_witness :
    (c4sem.wait_list.isEmpty && c4sem.has_available_units ⟨1, 10⟩) = false ∧
    c4sem.max_queue_length ≤ c4sem.wait_list.length ∧
    c4sem.do_wait_admission 9 permit_state.active 10 =
      { out := admission_outcome.overload_err
      , sem := { c4sem with stats := { c4sem.stats with
          total_reads_shed_due_to_overload :=
            c4sem.stats.total_reads_shed_due_to_overload + 1 } }
      , pstate := permit_state.active
      , prethrow_invoked := c4sem.prethrow_action
      , eviction_kicked := c4sem.wait_list.isEmpty && !c4sem.inactive_reads.isEmpty } :=
  ⟨by decide, by decide, C4_overload c4sem 9 permit_state.active 10 (by decide) (by decide)⟩

/-- The wake loop of signal admits exactly a prefix of the queue: the
admitted entries are the first n entries marked active, the remaining
queue is the matching suffix, the available amount is the start amount
minus the admitted requests in order, and the head left behind, if
any, does not fit the final amount. -/
theorem signal_loop_spec (initial : reader_resources) (avail : reader_resources)
    (l : List entry) :
    ∃ n, (signal_loop initial avail l).2.1 = (l.take n).map admit_entry ∧
      (signal_loop initial avail l).2.2 = l.drop n ∧
      (signal_loop initial avail l).1 =
        (l.take n).foldl (fun a e => a.sub e.res) avail ∧
      ∀ e, (signal_loop initial avail l).2.2.head? = some e →
        has_available_at initial (signal_loop initial avail l).1 e.res = false := by
  induction l generalizing avail with
  | nil =>
    exact ⟨0, rfl, rfl, rfl, by simp [signal_loop]⟩
  | cons e rest ih =>
    by_cases h : has_available_at initial avail e.res = true
    · obtain ⟨n, h1, h2, h3, h4⟩ := ih (avail.sub e.res)
      refine ⟨n + 1, ?_, ?_, ?_, ?_⟩
      · simp [signal_loop, h, h1]
      · simp [signal_loop, h, h2]
      · simp [signal_loop, h, h3]
      · intro x hx
        have hx2 : (signal_loop initial (avail.sub e.res) rest).2.2.head? = some x := by
          simpa [signal_loop, h] using hx
        have := h4 x hx2
        simpa [signal_loop, h] using this
    · have hf : has_available_at initial avail e.res = false := by
        simpa using h
      refine ⟨0, ?_, ?_, ?_, ?_⟩
      · simp [signal_loop, hf]
      · simp [signal_loop, hf]
      · simp [signal_loop, hf]
      · intro x hx
        have hx2 : e = x := by
          simpa [signal_loop, hf] using hx
        subst hx2
        simp [signal_loop, hf]

/-- C3: admission is strict FIFO. signal(R) first adds R to the
available resources and then dequeues waiters only from the head of
the queue, in order, while the head request passes has_available: the
admitted waiters form a prefix of the queue in queue order (so a later
waiter is never admitted before an earlier one), the remaining queue
is the matching suffix, and any remaining head does not fit. -/
theorem C3_signal_fifo (s : reader_concurrency_semaphore) (r : reader_resources) :
    ∃ n, (s.signal r).2 = (s.wait_list.take n).map admit_entry ∧
      (s.signal r).1.wait_list = s.wait_list.drop n ∧
      (s.signal r).1.resources =
        (s.wait_list.take n).foldl (fun a e => a.sub e.res) (s.resources.add r) ∧
      ∀ e, (s.signal r).1.wait_list.head? = some e →
        has_available_at s.initial_resources ((s.signal r).1.resources) e.res = false := by
  obtain ⟨n, h1, h2, h3, h4⟩ :=
    signal_loop_spec s.initial_resources (s.resources.add r) s.wait_list
  refine ⟨n, ?_, ?_, ?_, ?_⟩
  · simpa [signal] using h1
  · simpa [signal] using h2
  · simpa [signal] using h3
  · intro e he
    have := h4 e (by simpa [signal] using he)
    simpa [signal] using this

/-- Witness for C3 at a concrete semaphore with two queued waiters:
releasing (1, 30) admits the head only. -/
theorem C3_witness :
    ∃ n, (c3sem.signal ⟨1, 30⟩).2 = (c3sem.wait_list.take n).map admit_entry ∧
      (c3sem.signal ⟨1, 30⟩).1.wait_list = c3sem.wait_list.drop n ∧
      (c3sem.signal ⟨1, 30⟩).1.resources =
        (c3sem.wait_list.take n).foldl (fun a e => a.sub e.res)
          (c3sem.resources.add ⟨1, 30⟩) ∧
      ∀ e, (c3sem.signal ⟨1, 30⟩).1.wait_list.head? = some e →
        has_available_at c3sem.initial_resources
          ((c3sem.signal ⟨1, 30⟩).1.resources) e.res = false :=
  C3_signal_fifo c3sem ⟨1, 30⟩

/-- C5 counterexample: clear_inactive_reads empties the inactive list
without decrementing stats.inactive_reads, so on a semaphore holding
one inactive read with the counter in sync the equality is broken
afterwards: the list is empty while the counter still reads one. -/
theorem C5_counterexample :
    (c5sem.clear_inactive_reads).1.inactive_reads.length = 0 ∧
    (c5sem.clear_inactive_reads).1.stats.inactive_reads = 1 := by
  decide

/-- C5 (amended): stats.inactive_reads equals the inactive list length
and is preserved by register_inactive_read (on every branch), by
try_evict_one_inactive_read and by unregister_inactive_read on a live
entry; clear_inactive_reads however (and hence stop()) empties the
list while leaving the counter untouched, so after it the counter
exceeds the list length by the number of entries cleared. -/
theorem C5_inactive_counter :
    (∀ (s : reader_concurrency_semaphore) (ps : permit_state) (ir : inactive_read)
        (ok : Bool), inactive_counter_ok s →
      inactive_counter_ok (s.register_inactive_read ps ir ok).2.1) ∧
    (∀ (s : reader_concurrency_semaphore) (reason : evict_reason),
      inactive_counter_ok s →
      inactive_counter_ok (s.try_evict_one_inactive_read reason).2.1) ∧
    (∀ (s : reader_concurrency_semaphore) (ir_id : Nat), inactive_counter_ok s →
      (∃ x ∈ s.inactive_reads, x.id = ir_id) →
      inactive_counter_ok (s.unregister_inactive_read ir_id).1) ∧
    (∀ s : reader_concurrency_semaphore,
      (s.clear_inactive_reads).1.inactive_reads = [] ∧
      (s.clear_inactive_reads).1.stats.inactive_reads = s.stats.inactive_reads) := by
  refine ⟨?_, ?_, ?_, ?_⟩
  · intro s ps ir ok h
    by_cases h1 : (s.wait_list.isEmpty && decide (0 < s.resources.memory)) = true
    · by_cases h2 : ok = true
      · simpa [register_inactive_read, h1, h2, inactive_counter_ok] using h
      · have h2f : ok = false := by simpa using h2
        simpa [register_inactive_read, h1, h2f, inactive_counter_ok] using h
    · have h1f : (s.wait_list.isEmpty && decide (0 < s.resources.memory)) = false := by
        simpa using h1
      simpa [register_inactive_read, h1f, inactive_counter_ok] using h
  · intro s reason h
    cases hs : s.inactive_reads with
    | nil => simpa [try_evict_one_inactive_read, hs, inactive_counter_ok, hs] using h
    | cons ir rest =>
      have hh : s.stats.inactive_reads = rest.length + 1 := by
        have := h
        rw [inactive_counter_ok, hs] at this
        simpa using this
      cases reason <;>
        simp [try_evict_one_inactive_read, hs, evict, detach_inactive_reader,
          inactive_counter_ok, List.eraseP_cons_of_pos, hh]
  · intro s ir_id h hex
    obtain ⟨x, hx, hid⟩ := hex
    have hlen : (s.inactive_reads.eraseP (fun y => y.id == ir_id)).length =
        s.inactive_reads.length - 1 :=
      List.length_eraseP_of_mem hx (by simp [hid])
    have h2 : s.stats.inactive_reads = s.inactive_reads.length := h
    simp [unregister_inactive_read, inactive_counter_ok, hlen, h2]
  · intro s
    exact ⟨rfl, rfl⟩

/-- Witness for the amended C5 at a concrete semaphore: evicting the
single inactive read keeps the counter in sync with the list. -/
theorem C5_witness :
    inactive_counter_ok
      (c5sem.try_evict_one_inactive_read evict_reason.permit).2.1 :=
  C5_inactive_counter.2.1 c5sem evict_reason.permit rfl

/-- C6 counterexample: evicting with reason manual pops the entry and
returns true, yet no eviction counter is incremented; the stats have
no counter for manual evictions at all. -/
theorem C6_counterexample :
    (c6sem.try_evict_one_inactive_read evict_reason.manual).1 = true ∧
    (c6sem.try_evict_one_inactive_read
        evict_reason.manual).2.1.stats.permit_based_evictions = 0 ∧
    (c6sem.try_evict_one_inactive_read
        evict_reason.manual).2.1.stats.time_based_evictions = 0 ∧
    (c6sem.try_evict_one_inactive_read
        evict_reason.manual).2.1.stats.total_reads_shed_due_to_overload = 0 := by
  decide

/-- C6 (amended): try_evict_one returns false on an empty inactive
list; otherwise it pops the head (oldest) entry, invokes its notify
handler with the reason when one is installed, closes the reader in
the background, decrements stats.inactive_reads, increments the
matching eviction counter for reasons permit and time (manual
increments none), and returns true. -/
theorem C6_try_evict_one (s : reader_concurrency_semaphore) (reason : evict_reason) :
    (s.inactive_reads = [] → s.try_evict_one_inactive_read reason = (false, s, [])) ∧
    (∀ ir rest, s.inactive_reads = ir :: rest →
      (s.try_evict_one_inactive_read reason).1 = true ∧
      (s.try_evict_one_inactive_read reason).2.1.inactive_reads = rest ∧
      (s.try_evict_one_inactive_read reason).2.1.stats.inactive_reads =
        s.stats.inactive_reads - 1 ∧
      (s.try_evict_one_inactive_read reason).2.2 =
        (if ir.has_notify_handler then [event.notified ir.id reason] else []) ++
          [event.closed_reader ir.id] ∧
      (s.try_evict_one_inactive_read reason).2.1.stats.permit_based_evictions =
        s.stats.permit_based_evictions +
          (if reason = evict_reason.permit then 1 else 0) ∧
      (s.try_evict_one_inactive_read reason).2.1.stats.time_based_evictions =
        s.stats.time_based_evictions +
          (if reason = evict_reason.time then 1 else 0)) := by
  constructor
  · intro h
    simp [try_evict_one_inactive_read, h]
  · intro ir rest h
    cases reason <;>
      simp [try_evict_one_inactive_read, h, evict, detach_inactive_reader,
        List.eraseP_cons_of_pos]

/-- Witness for the amended C6 at a concrete semaphore holding one
inactive read with a notify handler, evicted for reason time. -/
theorem C6_witness :
    (c6sem.try_evict_one_inactive_read evict_reason.time).1 = true ∧
    (c6sem.try_evict_one_inactive_read evict_reason.time).2.1.inactive_reads = [] ∧
    (c6sem.try_evict_one_inactive_read evict_reason.time).2.1.stats.inactive_reads =
      c6sem.stats.inactive_reads - 1 ∧
    (c6sem.try_evict_one_inactive_read evict_reason.time).2.2 =
      (if (inactive_read.mk 3 true).has_notify_handler then
        [event.notified (inactive_read.mk 3 true).id evict_reason.time] else []) ++
        [event.closed_reader (inactive_read.mk 3 true).id] ∧
    (c6sem.try_evict_one_inactive_read evict_reason.time).2.1.stats.permit_based_evictions =
      c6sem.stats.permit_based_evictions +
        (if evict_reason.time = evict_reason.permit then 1 else 0) ∧
    (c6sem.try_evict_one_inactive_read evict_reason.time).2.1.stats.time_based_evictions =
      c6sem.stats.time_based_evictions +
        (if evict_reason.time = evict_reason.time then 1 else 0) :=
  (C6_try_evict_one c6sem evict_reason.time).2 (inactive_read.mk 3 true) [] rfl

/-- C7 counterexample: with an empty wait queue and positive memory
headroom, an allocation failure during register returns a null handle,
logs a warning and closes the reader, but does not increment
stats.permit_based_evictions, so it is not treated identically to the
immediate-eviction branch. -/
theorem C7_counterexample :
    ((make 2 100 4 false).register_inactive_read permit_state.active
        ⟨5, false⟩ false).1 = false ∧
    ((make 2 100 4 false).register_inactive_read permit_state.active
        ⟨5, false⟩ false).2.1.stats.permit_based_evictions = 0 ∧
    ((make 2 100 4 false).register_inactive_read permit_state.active
        ⟨5, false⟩ false).2.2.2 =
      [event.logged_warning, event.closed_reader 5] := by
  decide

/-- C7 (amended): register called while waiters are pending or the
memory headroom is not positive accepts the reader but evicts it
immediately, returning a null handle, bumping
stats.permit_based_evictions and closing the reader; an allocation
failure during registration also drops and closes the reader with a
null handle and a logged warning, but increments no counter and leaves
the semaphore state unchanged. -/
theorem C7_register_rejection (s : reader_concurrency_semaphore)
    (ps : permit_state) (ir : inactive_read) :
    (¬(s.wait_list = [] ∧ 0 < s.resources.memory) →
      ∀ ok, s.register_inactive_read ps ir ok =
        (false,
         { s with stats := { s.stats with
             permit_based_evictions := s.stats.permit_based_evictions + 1 } },
         ps, [event.closed_reader ir.id])) ∧
    (s.wait_list = [] → 0 < s.resources.memory →
      s.register_inactive_read ps ir false =
        (false, s, ps, [event.logged_warning, event.closed_reader ir.id])) := by
  constructor
  · intro h ok
    have hc : (s.wait_list.isEmpty && decide (0 < s.resources.memory)) = false := by
      by_cases hw : s.wait_list = []
      · have hm : ¬ 0 < s.resources.memory := fun hm => h ⟨hw, hm⟩
        simp [hw, hm]
      · simp [List.isEmpty_iff, hw]
    simp [register_inactive_read, hc]
  · intro hq hm
    simp [register_inactive_read, hq, hm]

/-- Witness for the amended C7: on a concrete semaphore with a queued
waiter, registering is an immediate permit-based eviction. -/
theorem C7_witness :
    c4sem.register_inactive_read permit_state.active ⟨5, false⟩ true =
      (false,
       { c4sem with stats := { c4sem.stats with
           permit_based_evictions := c4sem.stats.permit_based_evictions + 1 } },
       permit_state.active, [event.closed_reader 5]) :=
  (C7_register_rejection c4sem permit_state.active ⟨5, false⟩).1 (by decide) true

/-- Mapping the first projection over a pairing with a constant gives
the original list back. -/
theorem map_fst_pair {α β : Type} (l : List α) (e : β) :
    List.map (Prod.fst ∘ fun w => (w, e)) l = l := by
  induction l with
  | nil => rfl
  | cons a t ih => simpa using ih

/-- Mapping the second projection over a pairing with a constant gives
that constant repeated once per element. -/
theorem map_snd_pair {α β : Type} (l : List α) (e : β) :
    List.map (Prod.snd ∘ fun w => (w, e)) l = List.replicate l.length e := by
  induction l with
  | nil => rfl
  | cons a t ih => simpa [List.replicate] using ih

/-- C8 counterexample: after broken runs on a semaphore with one
queued waiter, a permit that requests admission afterwards is admitted
normally instead of seeing the broken error; no broken state is
recorded. -/
theorem C8_counterexample :
    ((c8sem.broken none).2.do_wait_admission 1 permit_state.active 10).out =
      admission_outcome.admitted ⟨1, 10⟩ := by
  decide

/-- C8 (amended): broken(err) fails every waiter currently in the wait
queue, in queue order, each with err (default: the broken-semaphore
error), and empties the queue, leaving resources and counters
untouched; stop() likewise fails all queued waiters with the stopped
error. The semaphore records no broken state, so a waiter that
enqueues afterwards is processed normally rather than failed. -/
theorem C8_broken_fails_current_waiters (s : reader_concurrency_semaphore)
    (ex : Option err_kind) :
    ((s.broken ex).1.map Prod.fst = s.wait_list ∧
     (s.broken ex).1.map Prod.snd =
       List.replicate s.wait_list.length (ex.getD err_kind.broken_semaphore) ∧
     (s.broken ex).2.wait_list = [] ∧
     (s.broken ex).2.resources = s.resources ∧
     (s.broken ex).2.stats = s.stats) ∧
    ((s.stop).1.wait_list = [] ∧
     (s.stop).2.2.map Prod.fst = s.wait_list ∧
     (s.stop).2.2.map Prod.snd =
       List.replicate s.wait_list.length err_kind.semaphore_stopped) := by
  refine ⟨⟨?_, ?_, rfl, rfl, rfl⟩, ?_, ?_, ?_⟩
  · simp only [broken, List.map_map]
    exact map_fst_pair _ _
  · simp only [broken, List.map_map, List.length_map]
    exact map_snd_pair _ _
  · rfl
  · simp only [stop, clear_inactive_reads, broken, List.map_map]
    exact map_fst_pair _ _
  · simp only [stop, clear_inactive_reads, broken, List.map_map, List.length_map]
    exact map_snd_pair _ _

/-- C9: evaluation at the failing input. A permit record destroyed
while holding the memory-only residue (0, 1024) does not trip the
truthiness guard of the destructor (truthiness per the spec needs both
components positive), so nothing is logged and nothing is returned:
available stays at (10, 976) instead of being restored to the initial
(10, 2000) as the claim and the repository's own unit test (destroyed
permit releases units) require. -/
theorem C9_leak_guard_misses_memory_only_residue :
    (permit_impl_destroy c9sem ⟨0, 1024⟩).logged_error = false ∧
    (permit_impl_destroy c9sem ⟨0, 1024⟩).sem = c9sem ∧
    c9sem.resources.add ⟨0, 1024⟩ = c9sem.initial_resources := by
  decide

/-- C10: failing a queued waiter leaves its permit record untouched:
the expiry handler resolves the entry with the timed-out error and
returns the entry (permit state field included) unchanged, and broken
passes every queued entry through unchanged; neither failure path
performs the on_admission transition, so a permit that was waiting
stays waiting unless it is enqueued again. -/
theorem C10_failed_waiter_keeps_state (e : entry) (s : reader_concurrency_semaphore)
    (ex : Option err_kind) :
    (expiry_handler e).1 = err_kind.timed_out ∧
    (expiry_handler e).2 = e ∧
    (s.broken ex).1.map Prod.fst = s.wait_list :=
  ⟨rfl, rfl, by
    simp only [broken, List.map_map]
    exact map_fst_pair _ _⟩

end Scylla
